import Mathlib

/-!
Verification development for the uadk_engine RSA offload path
(src/uadk_rsa.c, src/uadk_async.h): a shallow embedding of the
submission/completion coordination code and the RSA entry points,
with the asynchronous slot pool (whose implementation file is not in
the tree) modelled from the design specification.
-/

namespace Uadk

/-! ## Constants from src/uadk_rsa.c and src/uadk_async.h -/

def UADK_E_SUCCESS : Int := 1

def UADK_E_FAIL : Int := 0

def SOFT : Int := 2

def UADK_DO_SOFT : Int := -224

def UADK_E_POLL_SUCCESS : Int := 0

def RSA_MIN_MODULUS_BITS : Int := 512

def RSA1024BITS : Int := 1024

def RSA2048BITS : Int := 2048

def RSA3072BITS : Int := 3072

def RSA4096BITS : Int := 4096

def OPENSSLRSA7680BITS : Int := 7680

def OPENSSLRSA15360BITS : Int := 15360

/-- Linux errno value EBUSY. -/
def EBUSY : Int := 16

/-- Linux errno value EAGAIN. -/
def EAGAIN : Int := 11

/-- Capacity of the async task slot pool (src/uadk_async.h line 24). -/
def ASYNC_QUEUE_TASK_NUM : Nat := 1024

/-! ## Slot pool

The implementation file of the async slot pool (uadk_async.c) is not in
the tree; only its interface src/uadk_async.h is.  The pool state and its
two operations are therefore modelled from the specification. -/

/-- Modelled from the spec: state of the async slot pool of uadk_async.c,
whose implementation is missing from the tree (only uadk_async.h is
present).  `stat` is the occupancy bitmap over a fixed-capacity array
(spec section 4.1, header field `status[ASYNC_QUEUE_TASK_NUM]`), `sid`
the circular submit cursor (header field `sid`), and `sem` the
flow-control signal count that a callback-path release posts (spec
section 4.2, header field `full_sem`). -/
structure PoolState where
  stat : List Bool
  sid : Nat
  sem : Nat
deriving Repr, DecidableEq

/-- Number of occupied slots of the pool. -/
def occupiedCount (p : PoolState) : Nat := p.stat.count true

/-- Modelled from the spec: the scan of `acquire` — the first free slot in
circular order starting at the submit cursor (spec section 4.1). -/
def findFreeSlot (stat : List Bool) (sid : Nat) : Option Nat :=
  ((List.range stat.length).map (fun k => (sid + k) % stat.length)).find?
    (fun i => !stat.getD i true)

/-- Modelled from the spec: `async_get_free_task` (declared in
src/uadk_async.h line 73, implementation missing from the tree) —
returns the next free slot in circular order and marks it occupied, or
fails (EXHAUSTED, C return value 0) when no slot is free (spec section
4.1). -/
def async_get_free_task (p : PoolState) : Option Nat × PoolState :=
  match findFreeSlot p.stat p.sid with
  | none => (none, p)
  | some i => (some i, ⟨p.stat.set i true, (i + 1) % p.stat.length, p.sem⟩)

/-- Modelled from the spec: `async_free_poll_task` (declared in
src/uadk_async.h line 72, implementation missing from the tree) — marks
the slot free; freeing an already-free slot is a no-op, not an error;
a callback-path release (`is_cb = true`) additionally signals the
flow-control gate that a slot became available (spec sections 4.1, 4.2). -/
def async_free_poll_task (p : PoolState) (i : Nat) (is_cb : Bool) : PoolState :=
  if p.stat.getD i false then
    ⟨p.stat.set i false, p.sid, if is_cb then p.sem + 1 else p.sem⟩
  else p

/-- An operation on the slot pool, for reasoning over arbitrary
interleavings of submissions and releases. -/
inductive PoolOp where
  | acquire
  | release (i : Nat) (is_cb : Bool)
deriving Repr, DecidableEq

/-- Run a sequence of pool operations. -/
def runPool (p : PoolState) : List PoolOp → PoolState
  | [] => p
  | PoolOp.acquire :: rest => runPool (async_get_free_task p).2 rest
  | PoolOp.release i b :: rest => runPool (async_free_poll_task p i b) rest

/-! ## Observable events of the submission path (src/uadk_rsa.c) -/

/-- Calls made by `rsa_do_crypto` and `uadk_e_rsa_cb` to the async layer
and the hardware layer, recorded as a trace. -/
inductive Ev where
  | setupNotif
  | syncCall
  | registerCb
  | getFreeTask (res : Option Nat)
  | asyncSubmit
  | freePollTask (idx : Nat) (is_cb : Bool)
  | pauseJob
  | wakeJob
  | clearNotif
deriving Repr, DecidableEq

/-! ## The wd_do_rsa_async retry loop (src/uadk_rsa.c lines 1034-1040)

The C loop is `do { ret = wd_do_rsa_async(...); if (ret < 0 && ret !=
-EBUSY) {...fatal...} } while (ret == -EBUSY);`.  We drive it with the
finite list of statuses the hardware returns on successive calls; an
exhausted list while still busy models the loop still spinning. -/

/-- Number of `wd_do_rsa_async` calls the retry loop makes, and the first
status that ends the loop (`none` when the oracle list ran out while the
hardware kept answering busy). -/
def submitAttempts : List Int → Nat × Option Int
  | [] => (0, none)
  | r :: rest =>
    if r = -EBUSY then
      ((submitAttempts rest).1 + 1, (submitAttempts rest).2)
    else (1, some r)

/-! ## rsa_do_crypto (src/uadk_rsa.c lines 1004-1054) -/

/-- Outcome of `rsa_do_crypto`: a returned value, or still spinning in the
busy-retry loop (the oracle list of hardware answers was exhausted while
the hardware kept answering would-block). -/
inductive CryptoOutcome where
  | ret (v : Int)
  | spin
deriving Repr, DecidableEq

/-- Environment of one `rsa_do_crypto` call: the answers of the external
collaborators.  `setupOk` is `async_setup_async_event_notification`
succeeding (nonzero return); `hasJob` is `op.job != NULL` after setup;
`syncRet` the `wd_do_rsa_sync` status; `asyncRets` the successive
`wd_do_rsa_async` statuses; `pauseRet` the `async_pause_job` return;
`statusAfter` the value of `rsa_sess->req.status` once the job resumes. -/
structure CryptoEnv where
  setupOk : Bool
  hasJob : Bool
  syncRet : Int
  asyncRets : List Int
  pauseRet : Int
  statusAfter : Int
deriving Repr

/-- Shallow embedding of `rsa_do_crypto` (src/uadk_rsa.c lines 1004-1054):
returns the outcome, the trace of calls into the async/hardware layers,
and the slot pool state after the call. -/
def rsa_do_crypto (env : CryptoEnv) (pool : PoolState) :
    CryptoOutcome × List Ev × PoolState :=
  if ¬env.setupOk then (.ret UADK_E_FAIL, [.setupNotif], pool)
  else if ¬env.hasJob then
    if env.syncRet = 0 then (.ret UADK_E_SUCCESS, [.setupNotif, .syncCall], pool)
    else (.ret UADK_E_FAIL, [.setupNotif, .syncCall, .clearNotif], pool)
  else
    match (async_get_free_task pool).1 with
    | none =>
      (.ret UADK_E_FAIL, [.setupNotif, .registerCb, .getFreeTask none, .clearNotif],
        (async_get_free_task pool).2)
    | some idx =>
      match (submitAttempts env.asyncRets).2 with
      | none =>
        (.spin,
          [.setupNotif, .registerCb, .getFreeTask (some idx)] ++
            List.replicate (submitAttempts env.asyncRets).1 Ev.asyncSubmit,
          (async_get_free_task pool).2)
      | some r =>
        if r < 0 ∧ r ≠ -EBUSY then
          (.ret UADK_E_FAIL,
            [.setupNotif, .registerCb, .getFreeTask (some idx)] ++
              List.replicate (submitAttempts env.asyncRets).1 Ev.asyncSubmit ++
              [.freePollTask idx false, .clearNotif],
            async_free_poll_task (async_get_free_task pool).2 idx false)
        else if env.pauseRet = 0 then
          (.ret UADK_E_FAIL,
            [.setupNotif, .registerCb, .getFreeTask (some idx)] ++
              List.replicate (submitAttempts env.asyncRets).1 Ev.asyncSubmit ++
              [.pauseJob, .clearNotif],
            (async_get_free_task pool).2)
        else if env.statusAfter ≠ 0 then
          (.ret UADK_E_FAIL,
            [.setupNotif, .registerCb, .getFreeTask (some idx)] ++
              List.replicate (submitAttempts env.asyncRets).1 Ev.asyncSubmit ++
              [.pauseJob],
            (async_get_free_task pool).2)
        else
          (.ret UADK_E_SUCCESS,
            [.setupNotif, .registerCb, .getFreeTask (some idx)] ++
              List.replicate (submitAttempts env.asyncRets).1 Ev.asyncSubmit ++
              [.pauseJob],
            (async_get_free_task pool).2)

/-! ## uadk_e_rsa_cb (src/uadk_rsa.c lines 976-1002) -/

/-- State visible to the completion callback: nullness of the request, of
its carrier record and of the original request; the statuses; and the
`async_op` suspension context (`opNull`, `hasJob`, `done`, `idx`). -/
structure CbState where
  reqNull : Bool
  cbParamNull : Bool
  privNull : Bool
  newStatus : Int
  origStatus : Int
  opNull : Bool
  hasJob : Bool
  done : Bool
  idx : Nat
deriving Repr, DecidableEq

/-- Shallow embedding of `uadk_e_rsa_cb` (src/uadk_rsa.c lines 976-1002):
returns the updated state and the trace of async-layer calls
(`async_free_poll_task(op->idx, 1)` and `async_wake_job`). -/
def uadk_e_rsa_cb (s : CbState) : CbState × List Ev :=
  if s.reqNull then (s, [])
  else if s.cbParamNull then (s, [])
  else if s.privNull then (s, [])
  else if ¬s.opNull ∧ s.hasJob ∧ ¬s.done then
    ({ s with origStatus := s.newStatus, done := true },
      [.freePollTask s.idx true, .wakeJob])
  else ({ s with origStatus := s.newStatus }, [])

/-- Iterate the completion callback `n` times, concatenating the traces. -/
def iterCb : Nat → CbState → CbState × List Ev
  | 0, s => (s, [])
  | n + 1, s =>
    let fst := uadk_e_rsa_cb s
    let rest := iterCb n fst.1
    (rest.1, fst.2 ++ rest.2)

/-! ## uadk_e_rsa_poll (src/uadk_rsa.c lines 621-636) -/

/-- One answer of `wd_rsa_poll_ctx`: the returned status and the count it
wrote through its `recv` out-parameter. -/
structure PollResp where
  ret : Int
  recv : Nat
deriving Repr, DecidableEq

/-- Shallow embedding of the loop of `uadk_e_rsa_poll` (src/uadk_rsa.c
lines 621-636) with `expt = 1`, driven by the finite list of answers of
`wd_rsa_poll_ctx`; `none` models the loop still retrying when the oracle
list runs out. -/
def uadk_e_rsa_poll : List PollResp → Option Int
  | [] => none
  | r :: rest =>
    if r.recv ≥ 1 then some UADK_E_POLL_SUCCESS
    else if r.ret < 0 ∧ r.ret ≠ -EAGAIN then some r.ret
    else if r.ret = -EAGAIN then uadk_e_rsa_poll rest
    else some r.ret

/-! ## Input validation (src/uadk_rsa.c lines 136-157 and 557-566) -/

/-- Shallow embedding of `rsa_check_bit_useful` (src/uadk_rsa.c lines
136-157).  The C switch sends 1024/2048/3072/4096 to `UADK_E_SUCCESS`,
sends 7680, 15360 and 512 to `SOFT`, and defaults to `SOFT`. -/
def rsa_check_bit_useful (bits flen : Int) : Int :=
  if flen = 0 ∧ flen > bits then SOFT
  else if bits < RSA_MIN_MODULUS_BITS then UADK_E_FAIL
  else if bits = RSA1024BITS ∨ bits = RSA2048BITS ∨
          bits = RSA3072BITS ∨ bits = RSA4096BITS then UADK_E_SUCCESS
  else if bits = OPENSSLRSA7680BITS ∨ bits = OPENSSLRSA15360BITS ∨
          bits = RSA_MIN_MODULUS_BITS then SOFT
  else SOFT

/-- The arguments of an RSA entry point, as far as validation sees them:
nullness of the three pointers, the input length `flen`, and the modulus
bit length of the (non-null) key. -/
structure RsaInput where
  rsaNull : Bool
  fromNull : Bool
  toNull : Bool
  flen : Int
  bits : Int
deriving Repr, DecidableEq

/-- Shallow embedding of `check_rsa_input_para` (src/uadk_rsa.c lines
557-566). -/
def check_rsa_input_para (inp : RsaInput) : Int :=
  if inp.rsaNull ∨ inp.fromNull ∨ inp.toNull ∨ inp.flen ≤ 0 then UADK_E_FAIL
  else rsa_check_bit_useful inp.bits inp.flen

/-! ## The five RSA entry points (src/uadk_rsa.c lines 1279-1740)

Each entry point is a chain of fallible steps; a failing step either
jumps straight to the `exe_soft` label or sets `ret = UADK_DO_SOFT` and
runs the cleanup labels, after which `if (ret != UADK_DO_SOFT) return
ret;` falls into `exe_soft`.  The outcome is tagged by whether the value
returned to the caller came from the software fallback or from the
hardware attempt. -/

/-- Result of an RSA entry point: a value returned from the `exe_soft`
software-fallback call, or a value returned from the hardware path. -/
inductive RsaRet where
  | soft (v : Int)
  | hw (v : Int)
deriving Repr, DecidableEq

/-- Environment of `uadk_e_rsa_keygen` (src/uadk_rsa.c lines 1279-1348):
the outcomes of its fallible steps and the value of the software
fallback `uadk_e_soft_rsa_keygen`. -/
structure KeygenEnv where
  bits : Int
  initRet : Int
  allocOk : Bool
  sessOk : Bool
  primesOk : Bool
  bnCopyOk : Bool
  fillOk : Bool
  cryptoOk : Bool
  reqStatus : Int
  getParamOk : Bool
  softRet : Int
deriving Repr

/-- Shallow embedding of `uadk_e_rsa_keygen` (src/uadk_rsa.c lines
1279-1348); the keygen path calls `rsa_check_bit_useful(bits, 0)`. -/
def uadk_e_rsa_keygen (e : KeygenEnv) : RsaRet :=
  if rsa_check_bit_useful e.bits 0 = UADK_E_FAIL ∨
     rsa_check_bit_useful e.bits 0 = SOFT then .soft e.softRet
  else if e.initRet ≠ 0 then .soft e.softRet
  else if ¬e.allocOk then .soft e.softRet
  else if ¬e.sessOk then .soft e.softRet
  else if ¬e.primesOk then .soft e.softRet
  else if ¬e.bnCopyOk then .soft e.softRet
  else if ¬e.fillOk then .soft e.softRet
  else if ¬e.cryptoOk ∨ e.reqStatus ≠ 0 then .soft e.softRet
  else if ¬e.getParamOk then .soft e.softRet
  else .hw UADK_E_SUCCESS

/-- Environment of `uadk_e_rsa_public_encrypt` (src/uadk_rsa.c lines
1350-1437). -/
structure PubEncEnv where
  inp : RsaInput
  initRet : Int
  allocOk : Bool
  sessOk : Bool
  createBnOk : Bool
  numBytes : Int
  padOk : Bool
  fillOk : Bool
  cryptoOk : Bool
  reqStatus : Int
  bin2bnOk : Bool
  binpadRet : Int
  softRet : Int
deriving Repr

/-- Shallow embedding of `uadk_e_rsa_public_encrypt` (src/uadk_rsa.c
lines 1350-1437); its final `BN_bn2binpad` result is checked against -1. -/
def uadk_e_rsa_public_encrypt (e : PubEncEnv) : RsaRet :=
  if check_rsa_input_para e.inp = UADK_E_FAIL ∨
     check_rsa_input_para e.inp = SOFT then .soft e.softRet
  else if e.initRet ≠ 0 then .soft e.softRet
  else if ¬e.allocOk then .soft e.softRet
  else if ¬e.sessOk then .soft e.softRet
  else if ¬e.createBnOk then .soft e.softRet
  else if e.inp.flen > e.numBytes then .soft e.softRet
  else if ¬e.padOk then .soft e.softRet
  else if ¬e.fillOk then .soft e.softRet
  else if ¬e.cryptoOk ∨ e.reqStatus ≠ 0 then .soft e.softRet
  else if ¬e.bin2bnOk then .soft e.softRet
  else if e.binpadRet = -1 then .soft e.softRet
  else .hw e.binpadRet

/-- Environment of `uadk_e_rsa_private_decrypt` (src/uadk_rsa.c lines
1439-1528). -/
structure PriDecEnv where
  inp : RsaInput
  initRet : Int
  allocOk : Bool
  sessOk : Bool
  createBnOk : Bool
  numBytes : Int
  fillOk : Bool
  cryptoOk : Bool
  reqStatus : Int
  bin2bnOk : Bool
  binpadLen : Int
  padCheckRet : Int
  softRet : Int
deriving Repr

/-- Shallow embedding of `uadk_e_rsa_private_decrypt` (src/uadk_rsa.c
lines 1439-1528); its `BN_bn2binpad` result is checked with `if (!len)`
and its final step is `check_rsa_pridec_padding`. -/
def uadk_e_rsa_private_decrypt (e : PriDecEnv) : RsaRet :=
  if check_rsa_input_para e.inp = UADK_E_FAIL ∨
     check_rsa_input_para e.inp = SOFT then .soft e.softRet
  else if e.initRet ≠ 0 then .soft e.softRet
  else if ¬e.allocOk then .soft e.softRet
  else if ¬e.sessOk then .soft e.softRet
  else if ¬e.createBnOk then .soft e.softRet
  else if e.inp.flen > e.numBytes then .soft e.softRet
  else if ¬e.fillOk then .soft e.softRet
  else if ¬e.cryptoOk ∨ e.reqStatus ≠ 0 then .soft e.softRet
  else if ¬e.bin2bnOk then .soft e.softRet
  else if e.binpadLen = 0 then .soft e.softRet
  else if e.padCheckRet = 0 then .soft e.softRet
  else .hw e.padCheckRet

/-- Environment of `uadk_e_rsa_private_sign` (src/uadk_rsa.c lines
1530-1633). -/
structure PriSignEnv where
  inp : RsaInput
  initRet : Int
  allocOk : Bool
  sessOk : Bool
  createBnOk : Bool
  toBnOk : Bool
  numBytes : Int
  padOk : Bool
  bin2bnFromOk : Bool
  fillOk : Bool
  cryptoOk : Bool
  reqStatus : Int
  bin2bnOk : Bool
  signResOk : Bool
  binpadRet : Int
  softRet : Int
deriving Repr

/-- Shallow embedding of `uadk_e_rsa_private_sign` (src/uadk_rsa.c lines
1530-1633).  The final step is `ret = BN_bn2binpad(res, to, num_bytes);`
whose result is returned unchecked (src/uadk_rsa.c line 1619): a -1
failure there is returned to the caller directly instead of falling back
to software. -/
def uadk_e_rsa_private_sign (e : PriSignEnv) : RsaRet :=
  if check_rsa_input_para e.inp = UADK_E_FAIL ∨
     check_rsa_input_para e.inp = SOFT then .soft e.softRet
  else if e.initRet ≠ 0 then .soft e.softRet
  else if ¬e.allocOk then .soft e.softRet
  else if ¬e.sessOk then .soft e.softRet
  else if ¬e.createBnOk then .soft e.softRet
  else if ¬e.toBnOk then .soft e.softRet
  else if e.inp.flen > e.numBytes then .soft e.softRet
  else if ¬e.padOk then .soft e.softRet
  else if ¬e.bin2bnFromOk then .soft e.softRet
  else if ¬e.fillOk then .soft e.softRet
  else if ¬e.cryptoOk ∨ e.reqStatus ≠ 0 then .soft e.softRet
  else if ¬e.bin2bnOk then .soft e.softRet
  else if ¬e.signResOk then .soft e.softRet
  else .hw e.binpadRet

/-- Environment of `uadk_e_rsa_public_verify` (src/uadk_rsa.c lines
1635-1740). -/
structure PubVerEnv where
  inp : RsaInput
  initRet : Int
  allocOk : Bool
  sessOk : Bool
  createBnOk : Bool
  toBnOk : Bool
  bin2bnFromOk : Bool
  fillOk : Bool
  cryptoOk : Bool
  reqStatus : Int
  bin2bnOk : Bool
  verifyResOk : Bool
  binpadLen : Int
  padCheckRet : Int
  softRet : Int
deriving Repr

/-- Shallow embedding of `uadk_e_rsa_public_verify` (src/uadk_rsa.c lines
1635-1740).  Unlike the other entry points, an invalid-parameter result
of `check_rsa_input_para` returns `UADK_E_FAIL` immediately
(src/uadk_rsa.c lines 1648-1650) instead of jumping to `exe_soft`. -/
def uadk_e_rsa_public_verify (e : PubVerEnv) : RsaRet :=
  if check_rsa_input_para e.inp = UADK_E_FAIL then .hw UADK_E_FAIL
  else if check_rsa_input_para e.inp = SOFT then .soft e.softRet
  else if e.initRet ≠ 0 then .soft e.softRet
  else if ¬e.allocOk then .soft e.softRet
  else if ¬e.sessOk then .soft e.softRet
  else if ¬e.createBnOk then .soft e.softRet
  else if ¬e.toBnOk then .soft e.softRet
  else if ¬e.bin2bnFromOk then .soft e.softRet
  else if ¬e.fillOk then .soft e.softRet
  else if ¬e.cryptoOk ∨ e.reqStatus ≠ 0 then .soft e.softRet
  else if ¬e.bin2bnOk then .soft e.softRet
  else if ¬e.verifyResOk then .soft e.softRet
  else if e.binpadLen = 0 then .soft e.softRet
  else if e.padCheckRet = 0 then .soft e.softRet
  else .hw e.padCheckRet

/-! ## Lemmas about the slot pool -/

theorem getD_false_lt {l : List Bool} {i : Nat} (h : l.getD i true = false) :
    i < l.length := by
  by_contra hge
  rw [List.getD_eq_default _ _ (Nat.le_of_not_lt hge)] at h
  exact Bool.noConfusion h

theorem getD_true_lt {l : List Bool} {i : Nat} (h : l.getD i false = true) :
    i < l.length := by
  by_contra hge
  rw [List.getD_eq_default _ _ (Nat.le_of_not_lt hge)] at h
  exact Bool.noConfusion h

theorem set_of_getElem_eq {l : List Bool} {i : Nat} {a : Bool}
    (h : i < l.length) (ha : l[i] = a) : l.set i a = l := by
  apply List.ext_getElem?
  intro n
  by_cases hn : i = n
  · subst hn
    rw [List.getElem?_set_self h, List.getElem?_eq_getElem h, ha]
  · rw [List.getElem?_set_ne hn]

theorem findFreeSlot_some {stat : List Bool} {sid i : Nat}
    (h : findFreeSlot stat sid = some i) : stat.getD i true = false := by
  unfold findFreeSlot at h
  have := List.find?_some h
  simpa using this

theorem findFreeSlot_eq_none_of_full {stat : List Bool} (sid : Nat)
    (h : stat.count true = stat.length) : findFreeSlot stat sid = none := by
  have hall : ∀ b ∈ stat, b = true := fun b hb => (List.count_eq_length.1 h b hb).symm
  unfold findFreeSlot
  rw [List.find?_eq_none]
  intro x hx
  simp only [List.mem_map, List.mem_range] at hx
  obtain ⟨k, hk, rfl⟩ := hx
  have hpos : 0 < stat.length := Nat.lt_of_le_of_lt (Nat.zero_le k) hk
  have hlt : (sid + k) % stat.length < stat.length := Nat.mod_lt _ hpos
  have hone : stat.getD ((sid + k) % stat.length) true = true := by
    rw [List.getD_eq_getElem _ _ hlt]
    exact hall _ (List.getElem_mem hlt)
  show ¬(!stat.getD ((sid + k) % stat.length) true) = true
  rw [hone]
  simp

theorem async_get_free_task_some {p : PoolState} {i : Nat}
    (h : (async_get_free_task p).1 = some i) :
    p.stat.getD i true = false ∧
    (async_get_free_task p).2 = ⟨p.stat.set i true, (i + 1) % p.stat.length, p.sem⟩ := by
  unfold async_get_free_task at h ⊢
  cases hf : findFreeSlot p.stat p.sid with
  | none => rw [hf] at h; simp at h
  | some j =>
    rw [hf] at h
    simp at h
    subst h
    exact ⟨findFreeSlot_some hf, rfl⟩

theorem length_async_get_free_task (p : PoolState) :
    (async_get_free_task p).2.stat.length = p.stat.length := by
  unfold async_get_free_task
  cases hf : findFreeSlot p.stat p.sid with
  | none => rfl
  | some i => simp

theorem length_async_free_poll_task (p : PoolState) (i : Nat) (b : Bool) :
    (async_free_poll_task p i b).stat.length = p.stat.length := by
  unfold async_free_poll_task
  split <;> simp

theorem length_runPool (p : PoolState) (ops : List PoolOp) :
    (runPool p ops).stat.length = p.stat.length := by
  induction ops generalizing p with
  | nil => rfl
  | cons op rest ih =>
    cases op with
    | acquire => rw [runPool, ih, length_async_get_free_task]
    | release i b => rw [runPool, ih, length_async_free_poll_task]

theorem occupied_acquire_release {p : PoolState} {idx : Nat}
    (h : (async_get_free_task p).1 = some idx) :
    occupiedCount (async_free_poll_task (async_get_free_task p).2 idx false) =
      occupiedCount p := by
  obtain ⟨hfree, hstate⟩ := async_get_free_task_some h
  have hlt : idx < p.stat.length := getD_false_lt hfree
  have hval : p.stat[idx] = false := by
    rw [← List.getD_eq_getElem p.stat true hlt]
    exact hfree
  rw [hstate]
  have hocc : (p.stat.set idx true).getD idx false = true := by
    rw [List.getD_eq_getElem _ _ (by simp [hlt])]
    simp
  unfold async_free_poll_task
  rw [if_pos hocc]
  simp only [occupiedCount]
  rw [List.set_set, set_of_getElem_eq hlt hval]

/-! ## Claim C7 -/

/-- C7: the slot pool's capacity is the fixed constant
`ASYNC_QUEUE_TASK_NUM = 1024` and never grows: any sequence of pool
operations preserves the capacity, the number of simultaneously occupied
slots never exceeds it, and acquisition fails with the exhaustion result
(`none`, C return value 0) when no slot is free. -/
theorem slot_pool_bounded :
    ASYNC_QUEUE_TASK_NUM = 1024 ∧
    (∀ (p : PoolState) (ops : List PoolOp), p.stat.length = ASYNC_QUEUE_TASK_NUM →
      (runPool p ops).stat.length = ASYNC_QUEUE_TASK_NUM ∧
      occupiedCount (runPool p ops) ≤ ASYNC_QUEUE_TASK_NUM) ∧
    (∀ p : PoolState, occupiedCount p = p.stat.length →
      (async_get_free_task p).1 = none) := by
  refine ⟨rfl, ?_, ?_⟩
  · intro p ops hlen
    have h1 : (runPool p ops).stat.length = ASYNC_QUEUE_TASK_NUM := by
      rw [length_runPool, hlen]
    exact ⟨h1, by rw [← h1]; exact List.count_le_length _ _⟩
  · intro p hfull
    unfold async_get_free_task
    rw [findFreeSlot_eq_none_of_full p.sid hfull]

/-- A pool with every slot free, as at module initialization. -/
def initPool : PoolState := ⟨List.replicate ASYNC_QUEUE_TASK_NUM false, 0, 0⟩

/-- A pool with every slot occupied. -/
def fullPool : PoolState := ⟨List.replicate ASYNC_QUEUE_TASK_NUM true, 0, 0⟩

/-- Witness for C7: the bound holds after an acquisition on the
all-free pool, and acquisition on the all-occupied pool fails. -/
theorem slot_pool_bounded_witness :
    initPool.stat.length = ASYNC_QUEUE_TASK_NUM ∧
    occupiedCount (runPool initPool [PoolOp.acquire]) ≤ ASYNC_QUEUE_TASK_NUM ∧
    occupiedCount fullPool = fullPool.stat.length ∧
    (async_get_free_task fullPool).1 = none :=
  ⟨by simp [initPool],
   ((slot_pool_bounded.2.1 initPool [PoolOp.acquire]) (by simp [initPool])).2,
   by simp [occupiedCount, fullPool],
   slot_pool_bounded.2.2 fullPool (by simp [occupiedCount, fullPool])⟩

/-! ## Claim C8 -/

/-- C8: slot release is idempotent — releasing the same slot twice leaves
the pool state (occupancy, cursor and gate signal count) identical to
releasing it once, and releasing an already-free slot is a no-op. -/
theorem async_free_poll_task_idempotent :
    ∀ (p : PoolState) (i : Nat) (b : Bool),
      async_free_poll_task (async_free_poll_task p i b) i b =
        async_free_poll_task p i b ∧
      (p.stat.getD i false = false → async_free_poll_task p i b = p) := by
  intro p i b
  constructor
  · by_cases h : p.stat.getD i false = true
    · have hlt : i < p.stat.length := getD_true_lt h
      have h2 : (p.stat.set i false).getD i false = false := by
        rw [List.getD_eq_getElem _ _ (by simp [hlt])]
        simp
      have hin : async_free_poll_task p i b =
          ⟨p.stat.set i false, p.sid, if b then p.sem + 1 else p.sem⟩ := by
        unfold async_free_poll_task
        rw [if_pos h]
      rw [hin]
      unfold async_free_poll_task
      rw [if_neg (by rw [h2]; simp)]
    · have hb : p.stat.getD i false = false := by
        cases hx : p.stat.getD i false with
        | false => rfl
        | true => exact absurd hx h
      have hin : async_free_poll_task p i b = p := by
        unfold async_free_poll_task
        rw [if_neg (by rw [hb]; simp)]
      rw [hin, hin]
  · intro h
    unfold async_free_poll_task
    rw [if_neg (by rw [h]; simp)]

/-- Witness for C8: releasing slot 1, which is already free, is a no-op
on a concrete two-slot pool. -/
theorem async_free_poll_task_idempotent_witness :
    (⟨[true, false], 0, 0⟩ : PoolState).stat.getD 1 false = false ∧
    async_free_poll_task ⟨[true, false], 0, 0⟩ 1 false =
      (⟨[true, false], 0, 0⟩ : PoolState) :=
  ⟨by decide,
   (async_free_poll_task_idempotent ⟨[true, false], 0, 0⟩ 1 false).2 (by decide)⟩

/-! ## Lemmas about the completion callback -/

theorem uadk_e_rsa_cb_idx (s : CbState) : (uadk_e_rsa_cb s).1.idx = s.idx := by
  unfold uadk_e_rsa_cb
  split_ifs <;> rfl

theorem uadk_e_rsa_cb_events (s : CbState) :
    (uadk_e_rsa_cb s).2 = [] ∨
    ((uadk_e_rsa_cb s).2 = [.freePollTask s.idx true, .wakeJob] ∧
      (uadk_e_rsa_cb s).1.done = true ∧ s.done = false) := by
  unfold uadk_e_rsa_cb
  split_ifs with h1 h2 h3 h4
  · exact Or.inl rfl
  · exact Or.inl rfl
  · exact Or.inl rfl
  · refine Or.inr ⟨rfl, rfl, ?_⟩
    have := h4.2.2
    simp at this
    exact this
  · exact Or.inl rfl

theorem uadk_e_rsa_cb_of_done {s : CbState} (h : s.done = true) :
    (uadk_e_rsa_cb s).1.done = true ∧ (uadk_e_rsa_cb s).2 = [] := by
  unfold uadk_e_rsa_cb
  split_ifs with h1 h2 h3 h4
  · exact ⟨h, rfl⟩
  · exact ⟨h, rfl⟩
  · exact ⟨h, rfl⟩
  · exact absurd h (by simpa using h4.2.2)
  · exact ⟨h, rfl⟩

theorem iterCb_of_done {s : CbState} (h : s.done = true) (n : Nat) :
    (iterCb n s).2 = [] := by
  induction n generalizing s with
  | zero => rfl
  | succ k ih =>
    obtain ⟨hd, he⟩ := uadk_e_rsa_cb_of_done h
    simp only [iterCb, he, List.nil_append]
    exact ih hd

theorem iterCb_events (n : Nat) (s : CbState) :
    (iterCb n s).2 = [] ∨
    (iterCb n s).2 = [.freePollTask s.idx true, .wakeJob] := by
  induction n generalizing s with
  | zero => exact Or.inl rfl
  | succ k ih =>
    rcases uadk_e_rsa_cb_events s with he | ⟨he, hd, _⟩
    · simp only [iterCb, he, List.nil_append]
      rcases ih (uadk_e_rsa_cb s).1 with h | h
      · exact Or.inl h
      · rw [uadk_e_rsa_cb_idx] at h
        exact Or.inr h
    · simp only [iterCb, he]
      rw [iterCb_of_done hd]
      simp

/-! ## Claim C2 -/

/-- C2: the completion callback `uadk_e_rsa_cb` is exactly-once and
idempotent — on a live context (non-null pointers, a job, done still
false) it flips the done flag to true, frees the slot from the callback
path and wakes the job; on a context already done or with no job it is a
no-op on the done flag, the slot and the job; and over any number of
invocations the slot is freed and the job woken at most once. -/
theorem uadk_e_rsa_cb_exactly_once :
    (∀ s : CbState, s.reqNull = false → s.cbParamNull = false → s.privNull = false →
      s.opNull = false → s.hasJob = true → s.done = false →
      uadk_e_rsa_cb s =
        ({ s with origStatus := s.newStatus, done := true },
         [.freePollTask s.idx true, .wakeJob])) ∧
    (∀ s : CbState, s.done = true ∨ s.hasJob = false →
      (uadk_e_rsa_cb s).1.done = s.done ∧ (uadk_e_rsa_cb s).2 = []) ∧
    (∀ (n : Nat) (s : CbState),
      (iterCb n s).2 = [] ∨
      (iterCb n s).2 = [.freePollTask s.idx true, .wakeJob]) := by
  refine ⟨?_, ?_, iterCb_events⟩
  · intro s h1 h2 h3 h4 h5 h6
    unfold uadk_e_rsa_cb
    rw [if_neg (by simp [h1]), if_neg (by simp [h2]), if_neg (by simp [h3]),
        if_pos (by simp [h4, h5, h6])]
  · intro s h
    unfold uadk_e_rsa_cb
    split_ifs with h1 h2 h3 h4
    · exact ⟨rfl, rfl⟩
    · exact ⟨rfl, rfl⟩
    · exact ⟨rfl, rfl⟩
    · rcases h with h | h
      · exact absurd h (by simpa using h4.2.2)
      · exact absurd h (by simpa using h4.2.1)
    · exact ⟨rfl, rfl⟩

/-- A live completion-callback state: valid pointers, a job to wake, not
yet done, bound to slot 3. -/
def cbS0 : CbState :=
  { reqNull := false, cbParamNull := false, privNull := false,
    newStatus := 0, origStatus := -1, opNull := false,
    hasJob := true, done := false, idx := 3 }

/-- Witness for C2: the callback on `cbS0` fires once, and a second
invocation on the resulting (done) state is a no-op. -/
theorem uadk_e_rsa_cb_exactly_once_witness :
    cbS0.done = false ∧
    uadk_e_rsa_cb cbS0 =
      ({ cbS0 with origStatus := cbS0.newStatus, done := true },
       [.freePollTask cbS0.idx true, .wakeJob]) ∧
    ({ cbS0 with origStatus := cbS0.newStatus, done := true } : CbState).done = true ∧
    (uadk_e_rsa_cb { cbS0 with origStatus := cbS0.newStatus, done := true }).2 = [] :=
  ⟨rfl,
   uadk_e_rsa_cb_exactly_once.1 cbS0 rfl rfl rfl rfl rfl rfl,
   rfl,
   (uadk_e_rsa_cb_exactly_once.2.1
     { cbS0 with origStatus := cbS0.newStatus, done := true } (Or.inl rfl)).2⟩

/-! ## Claim C6 -/

/-- C6 counterexample: when `wd_rsa_poll_ctx` answers with status 0 and
no completion received, `uadk_e_rsa_poll` falls out of its loop and
returns the success status 0 even though no completion was observed —
refuting that 0 is returned only when at least one completion was
observed. -/
theorem rsa_poll_success_without_completion :
    uadk_e_rsa_poll [{ ret := 0, recv := 0 }] = some UADK_E_POLL_SUCCESS ∧
    ∀ r ∈ [({ ret := 0, recv := 0 } : PollResp)], r.recv < 1 := by
  decide

/-- C6 amended: `uadk_e_rsa_poll` returns 0 whenever at least one
completion is observed; it retries internally on a transient -EAGAIN
with no completion; any other negative status is returned as fatal; and
a non-negative status with no completion (0 included) is returned
directly. -/
theorem uadk_e_rsa_poll_drain :
    (∀ l : List PollResp,
      uadk_e_rsa_poll ({ ret := -EAGAIN, recv := 0 } :: l) = uadk_e_rsa_poll l) ∧
    (∀ (r : PollResp) (l : List PollResp), 1 ≤ r.recv →
      uadk_e_rsa_poll (r :: l) = some UADK_E_POLL_SUCCESS) ∧
    (∀ (r : PollResp) (l : List PollResp), r.recv = 0 → r.ret < 0 → r.ret ≠ -EAGAIN →
      uadk_e_rsa_poll (r :: l) = some r.ret) ∧
    (∀ (r : PollResp) (l : List PollResp), r.recv = 0 → 0 ≤ r.ret →
      uadk_e_rsa_poll (r :: l) = some r.ret) := by
  refine ⟨?_, ?_, ?_, ?_⟩
  · intro l
    simp [uadk_e_rsa_poll, EAGAIN]
  · intro r l h
    unfold uadk_e_rsa_poll
    rw [if_pos h]
  · intro r l h0 hneg hne
    unfold uadk_e_rsa_poll
    rw [if_neg (by omega), if_pos ⟨hneg, hne⟩]
  · intro r l h0 hpos
    unfold uadk_e_rsa_poll
    rw [if_neg (by omega), if_neg (by intro hc; omega),
        if_neg (by simp [EAGAIN]; omega)]

/-- Witness for C6 amended: a fatal -5 with no completion is returned
directly. -/
theorem uadk_e_rsa_poll_drain_witness :
    ({ ret := -5, recv := 0 } : PollResp).recv = 0 ∧
    ({ ret := -5, recv := 0 } : PollResp).ret < 0 ∧
    ({ ret := -5, recv := 0 } : PollResp).ret ≠ -EAGAIN ∧
    uadk_e_rsa_poll [{ ret := -5, recv := 0 }] = some (-5) :=
  ⟨rfl, by decide, by decide,
   uadk_e_rsa_poll_drain.2.2.1 { ret := -5, recv := 0 } [] rfl (by decide) (by decide)⟩

/-! ## The fatal submission path of rsa_do_crypto -/

theorem rsa_do_crypto_fatal_eq
    {env : CryptoEnv} {pool : PoolState} {idx : Nat} {r : Int}
    (hsetup : env.setupOk = true) (hjob : env.hasJob = true)
    (hacq : (async_get_free_task pool).1 = some idx)
    (hsub : (submitAttempts env.asyncRets).2 = some r)
    (hneg : r < 0) (hbusy : r ≠ -EBUSY) :
    rsa_do_crypto env pool =
      (.ret UADK_E_FAIL,
        [.setupNotif, .registerCb, .getFreeTask (some idx)] ++
          List.replicate (submitAttempts env.asyncRets).1 Ev.asyncSubmit ++
          [.freePollTask idx false, .clearNotif],
        async_free_poll_task (async_get_free_task pool).2 idx false) := by
  unfold rsa_do_crypto
  rw [hsetup, hjob, hacq, hsub]
  simp [hneg, hbusy]

/-! ## Claim C3 -/

theorem submitAttempts_replicate_busy (m : Nat) :
    submitAttempts (List.replicate m (-EBUSY)) = (m, none) := by
  induction m with
  | zero => rfl
  | succ k ih => simp [List.replicate_succ, submitAttempts, ih]

/-- C3 counterexample: the `wd_do_rsa_async` retry loop of
`rsa_do_crypto` is not bounded — no constant bounds the number of
submission attempts over all would-block answer sequences, since `m`
consecutive -EBUSY answers cause `m` attempts with the loop still
spinning. -/
theorem submit_retry_unbounded :
    (submitAttempts (List.replicate 5 (-EBUSY))).1 = 5 ∧
    ¬∃ N : Nat, ∀ rets : List Int, (submitAttempts rets).1 ≤ N := by
  constructor
  · rw [submitAttempts_replicate_busy]
  · rintro ⟨N, h⟩
    have hx := h (List.replicate (N + 1) (-EBUSY))
    rw [submitAttempts_replicate_busy] at hx
    omega

/-- C3 amended: on a would-block (-EBUSY) status the submitter retries
the submission — one further attempt per consecutive -EBUSY, with no
bound, never surfacing -EBUSY — the loop ends at the first non-busy
status, and any other negative status aborts the attempt as fatal
(`rsa_do_crypto` returns failure). -/
theorem rsa_do_crypto_busy_retry :
    (∀ l : List Int, submitAttempts (-EBUSY :: l) =
      ((submitAttempts l).1 + 1, (submitAttempts l).2)) ∧
    (∀ (r : Int) (l : List Int), r ≠ -EBUSY → submitAttempts (r :: l) = (1, some r)) ∧
    (∀ (env : CryptoEnv) (pool : PoolState) (idx : Nat) (r : Int),
      env.setupOk = true → env.hasJob = true →
      (async_get_free_task pool).1 = some idx →
      (submitAttempts env.asyncRets).2 = some r → r < 0 → r ≠ -EBUSY →
      (rsa_do_crypto env pool).1 = CryptoOutcome.ret UADK_E_FAIL) := by
  refine ⟨?_, ?_, ?_⟩
  · intro l
    simp [submitAttempts]
  · intro r l h
    simp [submitAttempts, h]
  · intro env pool idx r hsetup hjob hacq hsub hneg hbusy
    rw [rsa_do_crypto_fatal_eq hsetup hjob hacq hsub hneg hbusy]

/-- An environment whose hardware answers one would-block and then the
fatal status -22 on the asynchronous submission. -/
def cryptoFatalEnv : CryptoEnv :=
  { setupOk := true, hasJob := true, syncRet := 0,
    asyncRets := [-EBUSY, -22], pauseRet := 1, statusAfter := 0 }

/-- A small all-free pool for concrete witnesses. -/
def pool4 : PoolState := ⟨[false, false, false, false], 0, 0⟩

theorem acquire_pool4 : (async_get_free_task pool4).1 = some 0 := by
  decide

/-- Witness for C3 amended: a non-busy status ends the loop after one
attempt; a fatal -22 reached after one busy answer makes `rsa_do_crypto`
return failure. -/
theorem rsa_do_crypto_busy_retry_witness :
    ((3 : Int) ≠ -EBUSY) ∧
    submitAttempts [3] = (1, some 3) ∧
    cryptoFatalEnv.setupOk = true ∧ cryptoFatalEnv.hasJob = true ∧
    (async_get_free_task pool4).1 = some 0 ∧
    (submitAttempts cryptoFatalEnv.asyncRets).2 = some (-22) ∧
    (rsa_do_crypto cryptoFatalEnv pool4).1 = CryptoOutcome.ret UADK_E_FAIL :=
  ⟨by decide, rsa_do_crypto_busy_retry.2.1 3 [] (by decide),
   rfl, rfl, acquire_pool4, by decide,
   rsa_do_crypto_busy_retry.2.2 cryptoFatalEnv pool4 0 (-22) rfl rfl
     acquire_pool4 (by decide) (by decide) (by decide)⟩

/-! ## Claim C1 -/

/-- C1: if the asynchronous submission returns a fatal status (negative
and not -EBUSY) before the caller is parked, `rsa_do_crypto` rolls back
without blocking: it never calls `async_pause_job`, frees the acquired
slot via `async_free_poll_task(op.idx, 0)`, clears the async event
notification, returns failure, and pool occupancy after the call equals
pool occupancy before. -/
theorem rsa_do_crypto_fatal_rollback :
    ∀ (env : CryptoEnv) (pool : PoolState) (idx : Nat) (r : Int),
      env.setupOk = true → env.hasJob = true →
      (async_get_free_task pool).1 = some idx →
      (submitAttempts env.asyncRets).2 = some r → r < 0 → r ≠ -EBUSY →
      (rsa_do_crypto env pool).1 = CryptoOutcome.ret UADK_E_FAIL ∧
      Ev.pauseJob ∉ (rsa_do_crypto env pool).2.1 ∧
      Ev.freePollTask idx false ∈ (rsa_do_crypto env pool).2.1 ∧
      Ev.clearNotif ∈ (rsa_do_crypto env pool).2.1 ∧
      occupiedCount (rsa_do_crypto env pool).2.2 = occupiedCount pool := by
  intro env pool idx r hsetup hjob hacq hsub hneg hbusy
  rw [rsa_do_crypto_fatal_eq hsetup hjob hacq hsub hneg hbusy]
  refine ⟨rfl, ?_, ?_, ?_, occupied_acquire_release hacq⟩
  · simp [List.mem_append, List.mem_replicate]
  · simp
  · simp

/-- Witness for C1: the fatal status -22 after one -EBUSY makes the
concrete call roll back with occupancy preserved on a four-slot pool. -/
theorem rsa_do_crypto_fatal_rollback_witness :
    cryptoFatalEnv.setupOk = true ∧ cryptoFatalEnv.hasJob = true ∧
    (async_get_free_task pool4).1 = some 0 ∧
    (submitAttempts cryptoFatalEnv.asyncRets).2 = some (-22) ∧
    ((-22 : Int) < 0) ∧ ((-22 : Int) ≠ -EBUSY) ∧
    ((rsa_do_crypto cryptoFatalEnv pool4).1 = CryptoOutcome.ret UADK_E_FAIL ∧
      Ev.pauseJob ∉ (rsa_do_crypto cryptoFatalEnv pool4).2.1 ∧
      Ev.freePollTask 0 false ∈ (rsa_do_crypto cryptoFatalEnv pool4).2.1 ∧
      Ev.clearNotif ∈ (rsa_do_crypto cryptoFatalEnv pool4).2.1 ∧
      occupiedCount (rsa_do_crypto cryptoFatalEnv pool4).2.2 = occupiedCount pool4) :=
  ⟨rfl, rfl, acquire_pool4, by decide, by decide, by decide,
   rsa_do_crypto_fatal_rollback cryptoFatalEnv pool4 0 (-22) rfl rfl acquire_pool4
     (by decide) (by decide) (by decide)⟩

/-! ## Claim C5 -/

/-- C5: in synchronous mode (no job after event-notification setup),
`rsa_do_crypto` acquires no slot, registers no callback and never parks:
it calls the blocking `wd_do_rsa_sync` and returns success exactly when
that call returns zero; the pool is untouched. -/
theorem rsa_do_crypto_sync_mode :
    ∀ (env : CryptoEnv) (pool : PoolState), env.setupOk = true → env.hasJob = false →
      (rsa_do_crypto env pool).2.2 = pool ∧
      ((rsa_do_crypto env pool).1 = CryptoOutcome.ret UADK_E_SUCCESS ↔
        env.syncRet = 0) ∧
      Ev.syncCall ∈ (rsa_do_crypto env pool).2.1 ∧
      (∀ o : Option Nat, Ev.getFreeTask o ∉ (rsa_do_crypto env pool).2.1) ∧
      Ev.registerCb ∉ (rsa_do_crypto env pool).2.1 ∧
      Ev.pauseJob ∉ (rsa_do_crypto env pool).2.1 := by
  intro env pool hsetup hjob
  by_cases hs : env.syncRet = 0
  · have heq : rsa_do_crypto env pool =
        (.ret UADK_E_SUCCESS, [.setupNotif, .syncCall], pool) := by
      unfold rsa_do_crypto
      rw [hsetup, hjob]
      simp [hs]
    rw [heq]
    refine ⟨rfl, by simp [hs], by simp, fun o => by simp, by simp, by simp⟩
  · have heq : rsa_do_crypto env pool =
        (.ret UADK_E_FAIL, [.setupNotif, .syncCall, .clearNotif], pool) := by
      unfold rsa_do_crypto
      rw [hsetup, hjob]
      simp [hs]
    rw [heq]
    refine ⟨rfl, by simp [hs, UADK_E_FAIL, UADK_E_SUCCESS], by simp,
      fun o => by simp, by simp, by simp⟩

/-- A synchronous-mode environment: setup succeeded, no job supplied,
and the blocking call returns 0. -/
def cryptoSyncEnv : CryptoEnv :=
  { setupOk := true, hasJob := false, syncRet := 0,
    asyncRets := [], pauseRet := 1, statusAfter := 0 }

/-- Witness for C5: the synchronous-mode call on the four-slot pool. -/
theorem rsa_do_crypto_sync_mode_witness :
    cryptoSyncEnv.setupOk = true ∧ cryptoSyncEnv.hasJob = false ∧
    ((rsa_do_crypto cryptoSyncEnv pool4).2.2 = pool4 ∧
      ((rsa_do_crypto cryptoSyncEnv pool4).1 = CryptoOutcome.ret UADK_E_SUCCESS ↔
        cryptoSyncEnv.syncRet = 0) ∧
      Ev.syncCall ∈ (rsa_do_crypto cryptoSyncEnv pool4).2.1 ∧
      (∀ o : Option Nat, Ev.getFreeTask o ∉ (rsa_do_crypto cryptoSyncEnv pool4).2.1) ∧
      Ev.registerCb ∉ (rsa_do_crypto cryptoSyncEnv pool4).2.1 ∧
      Ev.pauseJob ∉ (rsa_do_crypto cryptoSyncEnv pool4).2.1) :=
  ⟨rfl, rfl, rsa_do_crypto_sync_mode cryptoSyncEnv pool4 rfl rfl⟩

/-! ## Claim C9 -/

/-- C9: for a non-negative modulus bit length, `rsa_check_bit_useful`
returns success exactly for 1024, 2048, 3072 and 4096 bits; below 512
bits it returns failure 0; any other size of at least 512 bits
(512, 7680 and 15360 included) yields the software-routing result. -/
theorem rsa_check_bit_useful_classification :
    ∀ (bits flen : Int), 0 ≤ bits →
      (rsa_check_bit_useful bits flen = UADK_E_SUCCESS ↔
        bits = 1024 ∨ bits = 2048 ∨ bits = 3072 ∨ bits = 4096) ∧
      (bits < 512 → rsa_check_bit_useful bits flen = UADK_E_FAIL) ∧
      (512 ≤ bits → bits ≠ 1024 → bits ≠ 2048 → bits ≠ 3072 → bits ≠ 4096 →
        rsa_check_bit_useful bits flen = SOFT) := by
  intro bits flen hb
  simp only [rsa_check_bit_useful, RSA_MIN_MODULUS_BITS, RSA1024BITS, RSA2048BITS,
    RSA3072BITS, RSA4096BITS, OPENSSLRSA7680BITS, OPENSSLRSA15360BITS,
    UADK_E_SUCCESS, UADK_E_FAIL, SOFT]
  rw [if_neg (by omega)]
  refine ⟨⟨?_, ?_⟩, ?_, ?_⟩
  · intro h
    split_ifs at h with h1 h2 h3
    · exact absurd h (by norm_num)
    · exact h2
    · exact absurd h (by norm_num)
    · exact absurd h (by norm_num)
  · intro h
    rcases h with h | h | h | h <;> subst h <;> norm_num
  · intro h
    rw [if_pos h]
  · intro h h1 h2 h3 h4
    rw [if_neg (by omega), if_neg (by tauto)]
    split_ifs <;> rfl

/-- Witness for C9: 2048 is hardware-usable, 256 fails, 7680 is routed
to software. -/
theorem rsa_check_bit_useful_classification_witness :
    ((0 : Int) ≤ 2048) ∧
    rsa_check_bit_useful 2048 0 = UADK_E_SUCCESS ∧
    rsa_check_bit_useful 256 0 = UADK_E_FAIL ∧
    rsa_check_bit_useful 7680 0 = SOFT :=
  ⟨by norm_num,
   (rsa_check_bit_useful_classification 2048 0 (by norm_num)).1.2 (Or.inr (Or.inl rfl)),
   (rsa_check_bit_useful_classification 256 0 (by norm_num)).2.1 (by norm_num),
   (rsa_check_bit_useful_classification 7680 0 (by norm_num)).2.2 (by norm_num)
     (by norm_num) (by norm_num) (by norm_num) (by norm_num)⟩

/-! ## Claim C4 -/

/-- An environment of `uadk_e_rsa_private_sign` in which every hardware
step succeeds but the final output conversion fails with -1. -/
def signEnvCex : PriSignEnv :=
  { inp := { rsaNull := false, fromNull := false, toNull := false,
             flen := 100, bits := 2048 },
    initRet := 0, allocOk := true, sessOk := true, createBnOk := true,
    toBnOk := true, numBytes := 256, padOk := true, bin2bnFromOk := true,
    fillOk := true, cryptoOk := true, reqStatus := 0, bin2bnOk := true,
    signResOk := true, binpadRet := -1, softRet := 7 }

/-- C4 counterexample: in `uadk_e_rsa_private_sign`, when every hardware
step succeeds but the final output conversion `BN_bn2binpad` fails with
-1 (its result is returned unchecked, src/uadk_rsa.c line 1619), the
function returns -1 from the hardware path instead of retrying through
the software fallback — refuting that every fatal condition on the
hardware path reaches `exe_soft`. -/
theorem private_sign_binpad_no_fallback :
    signEnvCex.binpadRet = -1 ∧
    uadk_e_rsa_private_sign signEnvCex = RsaRet.hw (-1) ∧
    uadk_e_rsa_private_sign signEnvCex ≠ RsaRet.soft signEnvCex.softRet := by
  decide

/-- C4 amended: in each RSA entry point every checked fatal or
exhaustion condition on the hardware path routes the call to the
software fallback, and a hardware-path value is returned only after
`rsa_do_crypto` succeeded with request status 0 (no partial hardware
result) — except that `uadk_e_rsa_public_verify` returns failure
directly on invalid parameters and `uadk_e_rsa_private_sign` returns
its final unchecked `BN_bn2binpad` result directly. -/
theorem rsa_entrypoints_fallback :
    (∀ e : KeygenEnv, uadk_e_rsa_keygen e = RsaRet.soft e.softRet ∨
      (uadk_e_rsa_keygen e = RsaRet.hw UADK_E_SUCCESS ∧
        e.cryptoOk = true ∧ e.reqStatus = 0)) ∧
    (∀ e : PubEncEnv, uadk_e_rsa_public_encrypt e = RsaRet.soft e.softRet ∨
      (uadk_e_rsa_public_encrypt e = RsaRet.hw e.binpadRet ∧
        e.cryptoOk = true ∧ e.reqStatus = 0 ∧ e.binpadRet ≠ -1)) ∧
    (∀ e : PriDecEnv, uadk_e_rsa_private_decrypt e = RsaRet.soft e.softRet ∨
      (uadk_e_rsa_private_decrypt e = RsaRet.hw e.padCheckRet ∧
        e.cryptoOk = true ∧ e.reqStatus = 0 ∧ e.padCheckRet ≠ 0)) ∧
    (∀ e : PriSignEnv, uadk_e_rsa_private_sign e = RsaRet.soft e.softRet ∨
      (uadk_e_rsa_private_sign e = RsaRet.hw e.binpadRet ∧
        e.cryptoOk = true ∧ e.reqStatus = 0)) ∧
    (∀ e : PubVerEnv, uadk_e_rsa_public_verify e = RsaRet.soft e.softRet ∨
      (uadk_e_rsa_public_verify e = RsaRet.hw UADK_E_FAIL ∧
        check_rsa_input_para e.inp = UADK_E_FAIL) ∨
      (uadk_e_rsa_public_verify e = RsaRet.hw e.padCheckRet ∧
        e.cryptoOk = true ∧ e.reqStatus = 0 ∧ e.padCheckRet ≠ 0)) := by
  refine ⟨?_, ?_, ?_, ?_, ?_⟩
  · intro e
    unfold uadk_e_rsa_keygen
    by_cases h1 : rsa_check_bit_useful e.bits 0 = UADK_E_FAIL ∨
        rsa_check_bit_useful e.bits 0 = SOFT
    · rw [if_pos h1]; exact Or.inl rfl
    rw [if_neg h1]
    by_cases h2 : e.initRet ≠ 0
    · rw [if_pos h2]; exact Or.inl rfl
    rw [if_neg h2]
    by_cases h3 : ¬e.allocOk = true
    · rw [if_pos h3]; exact Or.inl rfl
    rw [if_neg h3]
    by_cases h4 : ¬e.sessOk = true
    · rw [if_pos h4]; exact Or.inl rfl
    rw [if_neg h4]
    by_cases h5 : ¬e.primesOk = true
    · rw [if_pos h5]; exact Or.inl rfl
    rw [if_neg h5]
    by_cases h6 : ¬e.bnCopyOk = true
    · rw [if_pos h6]; exact Or.inl rfl
    rw [if_neg h6]
    by_cases h7 : ¬e.fillOk = true
    · rw [if_pos h7]; exact Or.inl rfl
    rw [if_neg h7]
    by_cases h8 : ¬e.cryptoOk = true ∨ e.reqStatus ≠ 0
    · rw [if_pos h8]; exact Or.inl rfl
    rw [if_neg h8]
    by_cases h9 : ¬e.getParamOk = true
    · rw [if_pos h9]; exact Or.inl rfl
    rw [if_neg h9]
    push_neg at h8
    exact Or.inr ⟨rfl, h8.1, h8.2⟩
  · intro e
    unfold uadk_e_rsa_public_encrypt
    by_cases h1 : check_rsa_input_para e.inp = UADK_E_FAIL ∨
        check_rsa_input_para e.inp = SOFT
    · rw [if_pos h1]; exact Or.inl rfl
    rw [if_neg h1]
    by_cases h2 : e.initRet ≠ 0
    · rw [if_pos h2]; exact Or.inl rfl
    rw [if_neg h2]
    by_cases h3 : ¬e.allocOk = true
    · rw [if_pos h3]; exact Or.inl rfl
    rw [if_neg h3]
    by_cases h4 : ¬e.sessOk = true
    · rw [if_pos h4]; exact Or.inl rfl
    rw [if_neg h4]
    by_cases h5 : ¬e.createBnOk = true
    · rw [if_pos h5]; exact Or.inl rfl
    rw [if_neg h5]
    by_cases h6 : e.inp.flen > e.numBytes
    · rw [if_pos h6]; exact Or.inl rfl
    rw [if_neg h6]
    by_cases h7 : ¬e.padOk = true
    · rw [if_pos h7]; exact Or.inl rfl
    rw [if_neg h7]
    by_cases h8 : ¬e.fillOk = true
    · rw [if_pos h8]; exact Or.inl rfl
    rw [if_neg h8]
    by_cases h9 : ¬e.cryptoOk = true ∨ e.reqStatus ≠ 0
    · rw [if_pos h9]; exact Or.inl rfl
    rw [if_neg h9]
    by_cases h10 : ¬e.bin2bnOk = true
    · rw [if_pos h10]; exact Or.inl rfl
    rw [if_neg h10]
    by_cases h11 : e.binpadRet = -1
    · rw [if_pos h11]; exact Or.inl rfl
    rw [if_neg h11]
    push_neg at h9
    exact Or.inr ⟨rfl, h9.1, h9.2, h11⟩
  · intro e
    unfold uadk_e_rsa_private_decrypt
    by_cases h1 : check_rsa_input_para e.inp = UADK_E_FAIL ∨
        check_rsa_input_para e.inp = SOFT
    · rw [if_pos h1]; exact Or.inl rfl
    rw [if_neg h1]
    by_cases h2 : e.initRet ≠ 0
    · rw [if_pos h2]; exact Or.inl rfl
    rw [if_neg h2]
    by_cases h3 : ¬e.allocOk = true
    · rw [if_pos h3]; exact Or.inl rfl
    rw [if_neg h3]
    by_cases h4 : ¬e.sessOk = true
    · rw [if_pos h4]; exact Or.inl rfl
    rw [if_neg h4]
    by_cases h5 : ¬e.createBnOk = true
    · rw [if_pos h5]; exact Or.inl rfl
    rw [if_neg h5]
    by_cases h6 : e.inp.flen > e.numBytes
    · rw [if_pos h6]; exact Or.inl rfl
    rw [if_neg h6]
    by_cases h7 : ¬e.fillOk = true
    · rw [if_pos h7]; exact Or.inl rfl
    rw [if_neg h7]
    by_cases h8 : ¬e.cryptoOk = true ∨ e.reqStatus ≠ 0
    · rw [if_pos h8]; exact Or.inl rfl
    rw [if_neg h8]
    by_cases h9 : ¬e.bin2bnOk = true
    · rw [if_pos h9]; exact Or.inl rfl
    rw [if_neg h9]
    by_cases h10 : e.binpadLen = 0
    · rw [if_pos h10]; exact Or.inl rfl
    rw [if_neg h10]
    by_cases h11 : e.padCheckRet = 0
    · rw [if_pos h11]; exact Or.inl rfl
    rw [if_neg h11]
    push_neg at h8
    exact Or.inr ⟨rfl, h8.1, h8.2, h11⟩
  · intro e
    unfold uadk_e_rsa_private_sign
    by_cases h1 : check_rsa_input_para e.inp = UADK_E_FAIL ∨
        check_rsa_input_para e.inp = SOFT
    · rw [if_pos h1]; exact Or.inl rfl
    rw [if_neg h1]
    by_cases h2 : e.initRet ≠ 0
    · rw [if_pos h2]; exact Or.inl rfl
    rw [if_neg h2]
    by_cases h3 : ¬e.allocOk = true
    · rw [if_pos h3]; exact Or.inl rfl
    rw [if_neg h3]
    by_cases h4 : ¬e.sessOk = true
    · rw [if_pos h4]; exact Or.inl rfl
    rw [if_neg h4]
    by_cases h5 : ¬e.createBnOk = true
    · rw [if_pos h5]; exact Or.inl rfl
    rw [if_neg h5]
    by_cases h6 : ¬e.toBnOk = true
    · rw [if_pos h6]; exact Or.inl rfl
    rw [if_neg h6]
    by_cases h7 : e.inp.flen > e.numBytes
    · rw [if_pos h7]; exact Or.inl rfl
    rw [if_neg h7]
    by_cases h8 : ¬e.padOk = true
    · rw [if_pos h8]; exact Or.inl rfl
    rw [if_neg h8]
    by_cases h9 : ¬e.bin2bnFromOk = true
    · rw [if_pos h9]; exact Or.inl rfl
    rw [if_neg h9]
    by_cases h10 : ¬e.fillOk = true
    · rw [if_pos h10]; exact Or.inl rfl
    rw [if_neg h10]
    by_cases h11 : ¬e.cryptoOk = true ∨ e.reqStatus ≠ 0
    · rw [if_pos h11]; exact Or.inl rfl
    rw [if_neg h11]
    by_cases h12 : ¬e.bin2bnOk = true
    · rw [if_pos h12]; exact Or.inl rfl
    rw [if_neg h12]
    by_cases h13 : ¬e.signResOk = true
    · rw [if_pos h13]; exact Or.inl rfl
    rw [if_neg h13]
    push_neg at h11
    exact Or.inr ⟨rfl, h11.1, h11.2⟩
  · intro e
    unfold uadk_e_rsa_public_verify
    by_cases h1 : check_rsa_input_para e.inp = UADK_E_FAIL
    · rw [if_pos h1]
      exact Or.inr (Or.inl ⟨rfl, h1⟩)
    rw [if_neg h1]
    by_cases h2 : check_rsa_input_para e.inp = SOFT
    · rw [if_pos h2]; exact Or.inl rfl
    rw [if_neg h2]
    by_cases h3 : e.initRet ≠ 0
    · rw [if_pos h3]; exact Or.inl rfl
    rw [if_neg h3]
    by_cases h4 : ¬e.allocOk = true
    · rw [if_pos h4]; exact Or.inl rfl
    rw [if_neg h4]
    by_cases h5 : ¬e.sessOk = true
    · rw [if_pos h5]; exact Or.inl rfl
    rw [if_neg h5]
    by_cases h6 : ¬e.createBnOk = true
    · rw [if_pos h6]; exact Or.inl rfl
    rw [if_neg h6]
    by_cases h7 : ¬e.toBnOk = true
    · rw [if_pos h7]; exact Or.inl rfl
    rw [if_neg h7]
    by_cases h8 : ¬e.bin2bnFromOk = true
    · rw [if_pos h8]; exact Or.inl rfl
    rw [if_neg h8]
    by_cases h9 : ¬e.fillOk = true
    · rw [if_pos h9]; exact Or.inl rfl
    rw [if_neg h9]
    by_cases h10 : ¬e.cryptoOk = true ∨ e.reqStatus ≠ 0
    · rw [if_pos h10]; exact Or.inl rfl
    rw [if_neg h10]
    by_cases h11 : ¬e.bin2bnOk = true
    · rw [if_pos h11]; exact Or.inl rfl
    rw [if_neg h11]
    by_cases h12 : ¬e.verifyResOk = true
    · rw [if_pos h12]; exact Or.inl rfl
    rw [if_neg h12]
    by_cases h13 : e.binpadLen = 0
    · rw [if_pos h13]; exact Or.inl rfl
    rw [if_neg h13]
    by_cases h14 : e.padCheckRet = 0
    · rw [if_pos h14]; exact Or.inl rfl
    rw [if_neg h14]
    push_neg at h10
    exact Or.inr (Or.inr ⟨rfl, h10.1, h10.2, h14⟩)

/-! ## Claim C10 -/

/-- C10: on a null rsa, from or to pointer or a non-positive flen,
`uadk_e_rsa_public_verify` returns failure 0 immediately without the
software fallback, whereas `uadk_e_rsa_public_encrypt`,
`uadk_e_rsa_private_decrypt` and `uadk_e_rsa_private_sign` forward the
same invalid arguments to the OpenSSL software implementation. -/
theorem rsa_entry_invalid_input_dispatch :
    ∀ inp : RsaInput,
      (inp.rsaNull = true ∨ inp.fromNull = true ∨ inp.toNull = true ∨
        inp.flen ≤ 0) →
      (∀ e : PubVerEnv, e.inp = inp →
        uadk_e_rsa_public_verify e = RsaRet.hw UADK_E_FAIL) ∧
      (∀ e : PubEncEnv, e.inp = inp →
        uadk_e_rsa_public_encrypt e = RsaRet.soft e.softRet) ∧
      (∀ e : PriDecEnv, e.inp = inp →
        uadk_e_rsa_private_decrypt e = RsaRet.soft e.softRet) ∧
      (∀ e : PriSignEnv, e.inp = inp →
        uadk_e_rsa_private_sign e = RsaRet.soft e.softRet) := by
  intro inp hinv
  have hck : check_rsa_input_para inp = UADK_E_FAIL := by
    unfold check_rsa_input_para
    rw [if_pos (by rcases hinv with h | h | h | h <;> simp [h])]
  refine ⟨?_, ?_, ?_, ?_⟩ <;> intro e he
  · unfold uadk_e_rsa_public_verify
    rw [he, if_pos hck]
  · unfold uadk_e_rsa_public_encrypt
    rw [he, if_pos (Or.inl hck)]
  · unfold uadk_e_rsa_private_decrypt
    rw [he, if_pos (Or.inl hck)]
  · unfold uadk_e_rsa_private_sign
    rw [he, if_pos (Or.inl hck)]

/-- Invalid arguments: null rsa pointer. -/
def invalidInp : RsaInput :=
  { rsaNull := true, fromNull := false, toNull := false, flen := 10, bits := 2048 }

/-- Verify-path environment carrying the invalid arguments. -/
def pubVerEnvW : PubVerEnv :=
  { inp := invalidInp, initRet := 0, allocOk := true, sessOk := true,
    createBnOk := true, toBnOk := true, bin2bnFromOk := true, fillOk := true,
    cryptoOk := true, reqStatus := 0, bin2bnOk := true, verifyResOk := true,
    binpadLen := 1, padCheckRet := 1, softRet := 5 }

/-- Encrypt-path environment carrying the invalid arguments. -/
def pubEncEnvW : PubEncEnv :=
  { inp := invalidInp, initRet := 0, allocOk := true, sessOk := true,
    createBnOk := true, numBytes := 256, padOk := true, fillOk := true,
    cryptoOk := true, reqStatus := 0, bin2bnOk := true, binpadRet := 256,
    softRet := 5 }

/-- Decrypt-path environment carrying the invalid arguments. -/
def priDecEnvW : PriDecEnv :=
  { inp := invalidInp, initRet := 0, allocOk := true, sessOk := true,
    createBnOk := true, numBytes := 256, fillOk := true, cryptoOk := true,
    reqStatus := 0, bin2bnOk := true, binpadLen := 1, padCheckRet := 1,
    softRet := 5 }

/-- Sign-path environment carrying the invalid arguments. -/
def priSignEnvW : PriSignEnv :=
  { inp := invalidInp, initRet := 0, allocOk := true, sessOk := true,
    createBnOk := true, toBnOk := true, numBytes := 256, padOk := true,
    bin2bnFromOk := true, fillOk := true, cryptoOk := true, reqStatus := 0,
    bin2bnOk := true, signResOk := true, binpadRet := 256, softRet := 5 }

/-- Witness for C10: with a null rsa pointer, verify fails in place and
the other three entry points go to the software fallback. -/
theorem rsa_entry_invalid_input_dispatch_witness :
    invalidInp.rsaNull = true ∧
    uadk_e_rsa_public_verify pubVerEnvW = RsaRet.hw UADK_E_FAIL ∧
    uadk_e_rsa_public_encrypt pubEncEnvW = RsaRet.soft pubEncEnvW.softRet ∧
    uadk_e_rsa_private_decrypt priDecEnvW = RsaRet.soft priDecEnvW.softRet ∧
    uadk_e_rsa_private_sign priSignEnvW = RsaRet.soft priSignEnvW.softRet :=
  ⟨rfl,
   (rsa_entry_invalid_input_dispatch invalidInp (Or.inl rfl)).1 pubVerEnvW rfl,
   (rsa_entry_invalid_input_dispatch invalidInp (Or.inl rfl)).2.1 pubEncEnvW rfl,
   (rsa_entry_invalid_input_dispatch invalidInp (Or.inl rfl)).2.2.1 priDecEnvW rfl,
   (rsa_entry_invalid_input_dispatch invalidInp (Or.inl rfl)).2.2.2 priSignEnvW rfl⟩

end Uadk
